import Mathlib

/-!
Shallow embedding of the simulation lifecycle controller of
`src/pyrep/pyrep.py` (class `PyRep`).  The controller state is the record
of the instance fields the lifecycle methods read and write; every call
into the external engine (and the thread/join/sleep effects around it) is
recorded as an `Event` in the order the source issues it.  Loops whose
termination depends on the external engine (the readiness poll, the
blocking-mode step loop, the responsive-UI loop) are modelled with
explicit fuel and an oracle trace giving the engine's answers per
iteration; running out of fuel is reported as an `incomplete` result and
never as completion.  Fields of the Python object never touched by the
lifecycle methods (`_process`, `connected`, `_robot_to_count`,
`_handles_to_objects`, `_init_thread_id`) are omitted, as is the purely
textual debug logging (`print` calls); engine calls that only read
diagnostic information (scene-name and object-tree probes) are recorded
as `infoQuery` events.
-/

namespace PyRepModel

/-- Error kinds raised by the lifecycle operations.  The source raises
`PyRepError` with two distinct messages; the spec names these kinds
`NotLaunchedError` and `ConfigurationError` respectively. -/
inductive Err where
  | notLaunched
  | sceneNotFound (scene : String)
  deriving DecidableEq

/-- The exact message strings used by `pyrep.py`. -/
def Err.message : Err → String
  | .notLaunched => "CoppeliaSim has not been launched. Call launch first."
  | .sceneNotFound scene => "Scene file does not exist: " ++ scene

/-- The two worker threads the controller may start. -/
inductive ThreadId where
  | session
  | responsive
  deriving DecidableEq

/-- Observable effects, in program order.  For `extStep`, `advance` is the
boolean passed to the engine's step call, `locked` records whether the
call was made while holding `utils.step_lock` (the Step Gate), and
`runningAtCall` is the controller's `running` flag at the moment of the
call. -/
inductive Event where
  | chdir (path : String)
  | setVerbosity
  | launchUI (scene : String) (headless : Bool)
  | threadStart (t : ThreadId)
  | extStep (advance locked runningAtCall : Bool)
  | startSim
  | stopSim
  | postExitRequest
  | simThreadInit
  | simThreadDestroy
  | joinThread (t : ThreadId)
  | setShuttingDown (b : Bool)
  | infoQuery
  | sleepMs (ms : Nat)
  deriving DecidableEq

/-- The mutable fields of the `PyRep` object read or written by the
lifecycle methods, plus the process working directory (read and written
by `launch` and by the session thread).  `uiThread` is
`_ui_thread is not None`, `responsiveUiThread` is
`_responsive_ui_thread is not None`. -/
structure PyRepState where
  running : Bool
  uiThread : Bool
  responsiveUiThread : Bool
  shuttingDown : Bool
  cwd : String
  deriving DecidableEq

/-- Modelled from the spec: the backend wrapper `sim.simExtStep` (module
`pyrep.backend.sim`, not under `src/`) is called by `step` with no
argument; the spec states that `step` "advances the simulation by one
tick", so the default advance flag is `true`. -/
def stepDefaultAdvance : Bool := true

/-- Modelled from the spec: the external engine is documented to only
refresh its UI on a step call when the simulation is not running, so a
step call is UI-only when its advance flag is false or the simulation
was not running at the call. -/
def Event.uiOnly : Event → Bool
  | .extStep adv _ runAt => !adv || !runAt
  | _ => false

/-- Whether an event is a step/advance/UI-refresh call into the engine. -/
def Event.stepLike : Event → Bool
  | .extStep _ _ _ => true
  | _ => false

/-- Whether the event was issued while holding the Step Gate. -/
def Event.lockHeld : Event → Bool
  | .extStep _ l _ => l
  | _ => false

/-- Events of one `step()` call (lines 343-350): acquire the Step Gate
and issue the engine step call. -/
def stepEvents (s : PyRepState) : List Event :=
  [Event.extStep stepDefaultAdvance true s.running]

/-- `PyRep.step` (lines 343-350).  Note: unlike `start`, `stop` and
`shutdown`, the source performs no launch check here. -/
def step (s : PyRepState) : Except Err (PyRepState × List Event) :=
  Except.ok (s, stepEvents s)

/-- `PyRep.step_ui` (lines 352-360): UI refresh under the Step Gate. -/
def step_ui (s : PyRepState) : Except Err (PyRepState × List Event) :=
  Except.ok (s, [Event.extStep false true s.running])

/-- `PyRep.start` (lines 325-331). -/
def start (s : PyRepState) : Except Err (PyRepState × List Event) :=
  if s.uiThread = false then Except.error Err.notLaunched
  else if s.running = false then
    Except.ok ({ s with running := true }, [Event.startSim])
  else Except.ok (s, [])

/-- Events of `[self.step() for _ in range(5)]` style repetition. -/
def stepTimes (s : PyRepState) : Nat → List Event
  | 0 => []
  | n + 1 => stepEvents s ++ stepTimes s n

/-- `PyRep.stop` (lines 333-341): if running, stop the simulation, clear
`running`, then call `step()` five times. -/
def stop (s : PyRepState) : Except Err (PyRepState × List Event) :=
  if s.uiThread = false then Except.error Err.notLaunched
  else if s.running = true then
    let s1 : PyRepState := { s with running := false }
    Except.ok (s1, Event.stopSim :: stepTimes s1 5)
  else Except.ok (s, [])

/-- `PyRep.shutdown` (lines 306-323): guard, set `_shutting_down`, call
`stop()`, call `step_ui()`, post the exit request, destroy the sim
thread, join the session thread, join the responsive thread when
present, sleep 0.1s, then clear the thread handle and the flag. -/
def shutdown (s : PyRepState) : Except Err (PyRepState × List Event) :=
  if s.uiThread = false then Except.error Err.notLaunched
  else
    let sA : PyRepState := { s with shuttingDown := true }
    match stop sA with
    | Except.error e => Except.error e
    | Except.ok (s2, stopEvs) =>
      Except.ok ({ s2 with uiThread := false, shuttingDown := false },
        Event.setShuttingDown true ::
          (stopEvs ++
            ([Event.extStep false true s2.running, Event.postExitRequest,
              Event.simThreadDestroy, Event.joinThread ThreadId.session] ++
              ((if s2.responsiveUiThread = true then
                  [Event.joinThread ThreadId.responsive]
                else []) ++
                [Event.sleepMs 100, Event.setShuttingDown false]))))

/-- One observation of the shared flags made by an iteration of the
responsive-UI loop (lines 88-95): the controller's `running` and
`_shutting_down` fields and the engine's exit-request predicate.  The
check of the flags happens while holding the Step Gate, as in the
source. -/
structure LoopObs where
  running : Bool
  shuttingDown : Bool
  exitReq : Bool
  deriving DecidableEq

/-- The loop of `PyRep._run_responsive_ui_thread` (lines 89-95), with
fuel.  Returns the index of the iteration at which the loop broke and
the events issued before the break, or `none` when the fuel ran out
first. -/
def runResponsiveLoop (obs : Nat → LoopObs) : Nat → Nat → Option (Nat × List Event)
  | 0, _ => none
  | fuel + 1, i =>
    if (obs i).running = false then
      if (obs i).shuttingDown = true ∨ (obs i).exitReq = true then some (i, [])
      else
        match runResponsiveLoop obs fuel (i + 1) with
        | none => none
        | some (j, evs) =>
          some (j, Event.extStep false true false :: Event.sleepMs 10 :: evs)
    else
      match runResponsiveLoop obs fuel (i + 1) with
      | none => none
      | some (j, evs) => some (j, Event.sleepMs 10 :: evs)

/-- `PyRep._run_responsive_ui_thread` (lines 88-99): run the loop, then
invoke `shutdown()` once when `_shutting_down` was not set.  The middle
component of the result is the number of `shutdown()` invocations made
by the thread after the loop exits. -/
def runResponsiveThread (obs : Nat → LoopObs) (fuel : Nat) :
    Option (Nat × Nat × List Event) :=
  match runResponsiveLoop obs fuel 0 with
  | none => none
  | some (j, evs) =>
    some (j, (if (obs j).shuttingDown = true then 0 else 1), evs)

/-- The break condition of the responsive-UI loop at iteration `i`. -/
def breakAt (obs : Nat → LoopObs) (i : Nat) : Bool :=
  !(obs i).running && ((obs i).shuttingDown || (obs i).exitReq)

/-- The readiness poll of `launch` (lines 135-136), with fuel: the index
of the first poll at which `simExtCanInitSimThread` answered true. -/
def findReady (can : Nat → Bool) : Nat → Nat → Option Nat
  | 0, _ => none
  | fuel + 1, i => if can i = true then some i else findReady can fuel (i + 1)

/-- The blocking-mode loop of `launch` (lines 230-231), with fuel:
`while not simExtGetExitRequest(): simExtStep(True)`.  The advance call
is issued WITHOUT acquiring the Step Gate in the source.  Returns
whether the exit request was observed within the fuel, and the events
issued. -/
def blockingLoop (exitReq : Nat → Bool) (r : Bool) : Nat → Nat → Bool × List Event
  | 0, _ => (false, [])
  | fuel + 1, i =>
    if exitReq i = true then (true, [])
    else
      let res := blockingLoop exitReq r fuel (i + 1)
      (res.1, Event.extStep true false r :: res.2)

/-- The external collaborators of `launch`: filesystem resolution
(`os.path.abspath`, `os.path.isfile`), the engine install root, and the
engine's answers to the readiness poll and the exit-request poll. -/
structure LaunchEnv where
  absPath : String → String
  isFile : String → Bool
  vrepRoot : String
  canInit : Nat → Bool
  exitReq : Nat → Bool

/-- Result of a `launch` call: a raised error, fuel exhaustion inside
one of the engine-driven loops (with the events issued so far), or
completion with the final state and the events issued. -/
inductive LaunchResult where
  | err (e : Err)
  | incomplete (evs : List Event)
  | done (s : PyRepState) (evs : List Event)
  deriving DecidableEq

/-- The events issued by a `launch` call. -/
def LaunchResult.events : LaunchResult → List Event
  | .err _ => []
  | .incomplete evs => evs
  | .done _ evs => evs

/-- `PyRep.launch` (lines 101-271).  The scene-file check (lines
109-114) runs before any engine call or thread start.  Starting the
session thread (lines 129-133) sets the thread handle; the session
thread body (`_run_ui_thread`, lines 68-86) chdirs to the engine root,
forces verbosity and launches the engine UI thread.  Then the readiness
poll (135-136), the one-shot init call and sleep (138-139), the
preliminary step under the Step Gate (143-149), the diagnostic probes
(163-227, recorded as `infoQuery`), the mode dispatch (229-247), the
post-dispatch probe for non-blocking modes (249-270), and the restore
of the working directory (271). -/
def launch (s : PyRepState) (env : LaunchEnv) (sceneFile : String)
    (headless responsiveUi blocking : Bool) (fuelPoll fuelBlock : Nat) :
    LaunchResult :=
  let absScene := env.absPath sceneFile
  if 0 < sceneFile.length ∧ env.isFile absScene = false then
    LaunchResult.err (Err.sceneNotFound sceneFile)
  else
    let absUsed := if sceneFile.length = 0 then "" else absScene
    let cwd0 := s.cwd
    let s1 : PyRepState := { s with uiThread := true, cwd := env.vrepRoot }
    let pre : List Event :=
      [Event.threadStart ThreadId.session, Event.chdir env.vrepRoot,
       Event.setVerbosity, Event.launchUI absUsed headless]
    match findReady env.canInit fuelPoll 0 with
    | none => LaunchResult.incomplete pre
    | some _ =>
      let pre2 := pre ++
        [Event.simThreadInit, Event.sleepMs 200,
         Event.extStep true true s1.running, Event.sleepMs 100,
         Event.infoQuery, Event.infoQuery]
      if blocking = true then
        let bl := blockingLoop env.exitReq s1.running fuelBlock 0
        if bl.1 = false then LaunchResult.incomplete (pre2 ++ bl.2)
        else
          match shutdown s1 with
          | Except.error e => LaunchResult.err e
          | Except.ok (s2, sevs) =>
            LaunchResult.done { s2 with cwd := cwd0 }
              (pre2 ++ bl.2 ++ sevs ++ [Event.chdir cwd0])
      else if responsiveUi = true then
        let s2 : PyRepState := { s1 with responsiveUiThread := true }
        LaunchResult.done { s2 with cwd := cwd0 }
          (pre2 ++ (Event.threadStart ThreadId.responsive :: stepEvents s2) ++
            [Event.infoQuery, Event.chdir cwd0])
      else
        LaunchResult.done { s1 with cwd := cwd0 }
          (pre2 ++ stepEvents s1 ++ [Event.infoQuery, Event.chdir cwd0])

/-- `PyRep.create_texture` option assembly (lines 457-465): the exact
bit-or sequence of the source, including `|= 3` for `repeat_along_u`
and `|= 4` for `repeat_along_v`. -/
def createTextureOptions
    (interpolate decal_mode repeat_along_u repeat_along_v : Bool) : Nat :=
  let o0 : Nat := 0
  let o1 := if interpolate = false then o0 ||| 1 else o0
  let o2 := if decal_mode = true then o1 ||| 2 else o1
  let o3 := if repeat_along_u = true then o2 ||| 3 else o2
  let o4 := if repeat_along_v = true then o3 ||| 4 else o3
  o4

/-- A freshly constructed, never-launched controller state. -/
def sFresh : PyRepState :=
  { running := false, uiThread := false, responsiveUiThread := false,
    shuttingDown := false, cwd := "/home/user" }

/-- A launched, stopped controller state. -/
def sLive : PyRepState := { sFresh with uiThread := true }

/-- A launched, running controller state. -/
def sRun : PyRepState := { sLive with running := true }

/-- A sample environment whose engine is immediately ready and raises
its exit request from the second poll on. -/
def cEnvReady : LaunchEnv :=
  { absPath := fun p => p, isFile := fun _ => true, vrepRoot := "/opt/sim",
    canInit := fun _ => true, exitReq := fun n => decide (1 ≤ n) }

/-- A sample environment whose engine never becomes ready. -/
def cEnvNoReady : LaunchEnv :=
  { cEnvReady with canInit := fun _ => false }

/-- A sample environment in which no file exists. -/
def cEnvNoFile : LaunchEnv :=
  { cEnvReady with isFile := fun _ => false }

/-- A sample observation trace for the responsive loop: simulation
stopped, no explicit shutdown, engine exit request raised from the
second iteration on. -/
def cObs : Nat → LoopObs :=
  fun i => { running := false, shuttingDown := false, exitReq := decide (1 ≤ i) }

/-- Claim C1, counterexample: `step` called on a never-launched
controller does not fail with `NotLaunchedError`; it silently issues the
engine step call (the source's `step`, lines 343-350, performs no launch
check), refuting the claim that all four of `start`, `stop`, `step`,
`shutdown` fail before a launch. -/
theorem step_unlaunched_counterexample :
    step sFresh = Except.ok (sFresh, [Event.extStep true true false]) ∧
    step sFresh ≠ Except.error Err.notLaunched := by
  constructor
  · rfl
  · intro h
    simp [step] at h

/-- Claim C1, amended: calling `start`, `stop` or `shutdown` while the
session-thread handle is `None` fails with `NotLaunchedError` and never
silently succeeds; `step`, however, performs no launch check and issues
its engine step call even when unlaunched. -/
theorem lifecycle_guard_amended (s : PyRepState) (h : s.uiThread = false) :
    start s = Except.error Err.notLaunched ∧
    stop s = Except.error Err.notLaunched ∧
    shutdown s = Except.error Err.notLaunched ∧
    step s = Except.ok (s, stepEvents s) := by
  refine ⟨?_, ?_, ?_, rfl⟩
  · simp [start, h]
  · simp [stop, h]
  · simp [shutdown, h]

/-- Claim C1, witness: the amended guarantee evaluated on the fresh,
never-launched state. -/
theorem lifecycle_guard_amended_witness :
    start sFresh = Except.error Err.notLaunched ∧
    stop sFresh = Except.error Err.notLaunched ∧
    shutdown sFresh = Except.error Err.notLaunched ∧
    step sFresh = Except.ok (sFresh, stepEvents sFresh) :=
  lifecycle_guard_amended sFresh rfl

/-- Claim C10: in `create_texture` the option flags are not independent
bits; `repeat_along_u` ors in 3 and `repeat_along_v` ors in 4, so the
call with `interpolate=true, decal_mode=false, repeat_along_u=true,
repeat_along_v=false` passes the same options value 3 to the engine as
the call with `interpolate=false, decal_mode=true, repeat_along_u=false,
repeat_along_v=false`. -/
theorem create_texture_option_bits :
    createTextureOptions true false true false = 3 ∧
    createTextureOptions false true false false = 3 ∧
    (∀ i d v, createTextureOptions i d true v =
      createTextureOptions i d false v ||| 3) ∧
    (∀ i d u, createTextureOptions i d u true =
      createTextureOptions i d u false ||| 4) := by
  refine ⟨rfl, rfl, ?_, ?_⟩ <;> decide

/-- Claim C5: `launch` with a non-empty scene path that does not exist
fails with the configuration error before any engine call, issuing no
events and starting no worker thread, for every mode and any fuel. -/
theorem launch_bad_scene (s : PyRepState) (env : LaunchEnv)
    (sceneFile : String) (headless responsiveUi blocking : Bool)
    (fuelPoll fuelBlock : Nat) (h1 : 0 < sceneFile.length)
    (h2 : env.isFile (env.absPath sceneFile) = false) :
    launch s env sceneFile headless responsiveUi blocking fuelPoll fuelBlock =
      LaunchResult.err (Err.sceneNotFound sceneFile) ∧
    (launch s env sceneFile headless responsiveUi blocking
      fuelPoll fuelBlock).events = [] := by
  have hl : launch s env sceneFile headless responsiveUi blocking
      fuelPoll fuelBlock = LaunchResult.err (Err.sceneNotFound sceneFile) := by
    unfold launch
    rw [if_pos ⟨h1, h2⟩]
  exact ⟨hl, by rw [hl]; rfl⟩

/-- Claim C5, witness: missing scene file on a concrete environment. -/
theorem launch_bad_scene_witness :
    launch sFresh cEnvNoFile "missing.ttt" false false false 3 3 =
      LaunchResult.err (Err.sceneNotFound "missing.ttt") ∧
    (launch sFresh cEnvNoFile "missing.ttt" false false false 3 3).events
      = [] :=
  launch_bad_scene sFresh cEnvNoFile "missing.ttt" false false false 3 3
    (by decide) rfl

/-- Claim C3: `stop` on a launched, running controller issues the
external stop-simulation call, clears `running`, and then issues exactly
five step calls, each of which is UI-only (the simulation is no longer
running when they are issued); on a launched, already-stopped controller
`stop` is a no-op issuing no engine calls. -/
theorem stop_running_and_stopped (s : PyRepState) (h : s.uiThread = true) :
    (s.running = true →
      stop s = Except.ok ({ s with running := false },
        Event.stopSim :: stepTimes { s with running := false } 5) ∧
      stepTimes { s with running := false } 5 =
        List.replicate 5 (Event.extStep stepDefaultAdvance true false) ∧
      ∀ e ∈ stepTimes { s with running := false } 5,
        Event.uiOnly e = true ∧ Event.stepLike e = true) ∧
    (s.running = false → stop s = Except.ok (s, [])) := by
  constructor
  · intro hr
    refine ⟨?_, rfl, ?_⟩
    · simp [stop, h, hr]
    · intro e he
      have : e = Event.extStep stepDefaultAdvance true false := by
        simp [stepTimes, stepEvents] at he
        simpa using he
      subst this
      exact ⟨rfl, rfl⟩
  · intro hr
    simp [stop, h, hr]

/-- Claim C3, witness: `stop` evaluated on the running sample state. -/
theorem stop_running_and_stopped_witness :
    stop sRun = Except.ok ({ sRun with running := false },
      Event.stopSim :: stepTimes { sRun with running := false } 5) ∧
    stepTimes { sRun with running := false } 5 =
      List.replicate 5 (Event.extStep stepDefaultAdvance true false) :=
  ⟨((stop_running_and_stopped sRun rfl).1 rfl).1,
   ((stop_running_and_stopped sRun rfl).1 rfl).2.1⟩

/-- Claim C4: `shutdown` on a launched controller performs, in order:
set `shuttingDown`, the `stop()` events (present exactly when the
simulation was running), the `step_ui()` refresh, the exit-request
post, the engine thread teardown, the session-thread join, the
responsive-thread join when that thread was started, and the fixed
100 ms sleep; on completion the session-thread handle is cleared
(`uiThread = false`, state UNLAUNCHED) and `shuttingDown` is false
again. -/
theorem shutdown_sequence (s : PyRepState) (h : s.uiThread = true) :
    shutdown s =
      Except.ok
        ({ s with running := false, uiThread := false, shuttingDown := false },
          Event.setShuttingDown true ::
            ((if s.running = true then
                Event.stopSim ::
                  List.replicate 5 (Event.extStep stepDefaultAdvance true false)
              else []) ++
              ([Event.extStep false true false, Event.postExitRequest,
                Event.simThreadDestroy, Event.joinThread ThreadId.session] ++
                ((if s.responsiveUiThread = true then
                    [Event.joinThread ThreadId.responsive]
                  else []) ++
                  [Event.sleepMs 100, Event.setShuttingDown false])))) := by
  cases s with
  | mk r u rt sd cw =>
    simp only [PyRepState.uiThread] at h
    subst h
    cases r <;> cases rt <;>
      simp [shutdown, stop, stepTimes, stepEvents, List.replicate]

/-- Claim C4, witness: the shutdown sequence evaluated on the launched,
stopped sample state. -/
theorem shutdown_sequence_witness :
    shutdown sLive =
      Except.ok
        ({ sLive with
            running := false,
            uiThread := false,
            shuttingDown := false },
          Event.setShuttingDown true ::
            ((if sLive.running = true then
                Event.stopSim ::
                  List.replicate 5 (Event.extStep stepDefaultAdvance true false)
              else []) ++
              ([Event.extStep false true false, Event.postExitRequest,
                Event.simThreadDestroy, Event.joinThread ThreadId.session] ++
                ((if sLive.responsiveUiThread = true then
                    [Event.joinThread ThreadId.responsive]
                  else []) ++
                  [Event.sleepMs 100, Event.setShuttingDown false])))) :=
  shutdown_sequence sLive rfl

/-- Claim C8: `shutdown` is not idempotent as a call: after one
`shutdown` completes, the resulting state has the session-thread handle
cleared, so a second `shutdown` without an intervening `launch` raises
`NotLaunchedError` (returning no new state and no engine events), as do
`start` and `stop`. -/
theorem shutdown_not_idempotent (s s' : PyRepState) (evs : List Event)
    (h : shutdown s = Except.ok (s', evs)) :
    shutdown s' = Except.error Err.notLaunched ∧
    start s' = Except.error Err.notLaunched ∧
    stop s' = Except.error Err.notLaunched := by
  have hu : s'.uiThread = false := by
    by_cases hs : s.uiThread = false
    · rw [shutdown, if_pos hs] at h
      exact absurd h (by simp)
    · simp only [shutdown] at h
      rw [if_neg hs] at h
      cases hstop : stop { s with shuttingDown := true } with
      | error e =>
        rw [hstop] at h
        exact absurd h (by simp)
      | ok p =>
        obtain ⟨s2, evs2⟩ := p
        rw [hstop] at h
        simp only [Except.ok.injEq, Prod.mk.injEq] at h
        rw [← h.1]
  exact ⟨by simp [shutdown, hu], by simp [start, hu], by simp [stop, hu]⟩

/-- Claim C8, witness: a concrete completed shutdown followed by the
three guarded calls. -/
theorem shutdown_not_idempotent_witness :
    shutdown sFresh = Except.error Err.notLaunched ∧
    start sFresh = Except.error Err.notLaunched ∧
    stop sFresh = Except.error Err.notLaunched :=
  shutdown_not_idempotent sLive sFresh
    [Event.setShuttingDown true, Event.extStep false true false,
     Event.postExitRequest, Event.simThreadDestroy,
     Event.joinThread ThreadId.session, Event.sleepMs 100,
     Event.setShuttingDown false] (by rfl)

/-- Helper: when the responsive-UI loop started at iteration `i` exits at
iteration `j`, the break condition held at `j` and at no earlier
iteration from `i` on. -/
theorem runResponsiveLoop_exit (obs : Nat → LoopObs) :
    ∀ fuel i j evs, runResponsiveLoop obs fuel i = some (j, evs) →
      i ≤ j ∧ breakAt obs j = true ∧
        ∀ k, i ≤ k → k < j → breakAt obs k = false := by
  intro fuel
  induction fuel with
  | zero =>
    intro i j evs h
    exact absurd h (by simp [runResponsiveLoop])
  | succ n ih =>
    intro i j evs h
    simp only [runResponsiveLoop] at h
    by_cases hr : (obs i).running = false
    · rw [if_pos hr] at h
      by_cases hb : (obs i).shuttingDown = true ∨ (obs i).exitReq = true
      · rw [if_pos hb] at h
        simp only [Option.some.injEq, Prod.mk.injEq] at h
        obtain ⟨hj, -⟩ := h
        subst hj
        refine ⟨Nat.le_refl _, ?_, ?_⟩
        · rcases hb with hb | hb <;> simp [breakAt, hr, hb]
        · intro k hk1 hk2
          omega
      · rw [if_neg hb] at h
        cases hrec : runResponsiveLoop obs n (i + 1) with
        | none =>
          rw [hrec] at h
          exact absurd h (by simp)
        | some p =>
          obtain ⟨j', evs'⟩ := p
          rw [hrec] at h
          simp only [Option.some.injEq, Prod.mk.injEq] at h
          obtain ⟨hj, -⟩ := h
          subst hj
          obtain ⟨hij, hbk, hmin⟩ := ih (i + 1) j' evs' hrec
          push_neg at hb
          refine ⟨by omega, hbk, ?_⟩
          intro k hk1 hk2
          rcases Nat.eq_or_lt_of_le hk1 with he | hlt
          · rw [← he]
            simp [breakAt, hr, hb.1, hb.2]
          · exact hmin k hlt hk2
    · rw [if_neg hr] at h
      have hr' : (obs i).running = true := by
        cases hv : (obs i).running
        · exact absurd hv hr
        · rfl
      cases hrec : runResponsiveLoop obs n (i + 1) with
      | none =>
        rw [hrec] at h
        exact absurd h (by simp)
      | some p =>
        obtain ⟨j', evs'⟩ := p
        rw [hrec] at h
        simp only [Option.some.injEq, Prod.mk.injEq] at h
        obtain ⟨hj, -⟩ := h
        subst hj
        obtain ⟨hij, hbk, hmin⟩ := ih (i + 1) j' evs' hrec
        refine ⟨by omega, hbk, ?_⟩
        intro k hk1 hk2
        rcases Nat.eq_or_lt_of_le hk1 with he | hlt
        · rw [← he]
          simp [breakAt, hr']
        · exact hmin k hlt hk2

/-- Claim C6: the responsive-UI thread exits its loop at the first
iteration at which, under the Step Gate, it observes the simulation not
running together with `shuttingDown` or the engine exit signal; after
the loop it invokes `shutdown()` exactly once if and only if
`shuttingDown` was false at that point, and never more than once. -/
theorem responsive_loop_shutdown_once (obs : Nat → LoopObs)
    (fuel j n : Nat) (evs : List Event)
    (h : runResponsiveThread obs fuel = some (j, n, evs)) :
    breakAt obs j = true ∧
    (∀ k, k < j → breakAt obs k = false) ∧
    n ≤ 1 ∧
    (n = 1 ↔ (obs j).shuttingDown = false) := by
  unfold runResponsiveThread at h
  cases hrl : runResponsiveLoop obs fuel 0 with
  | none =>
    rw [hrl] at h
    exact absurd h (by simp)
  | some p =>
    obtain ⟨j', evs'⟩ := p
    rw [hrl] at h
    simp only [Option.some.injEq, Prod.mk.injEq] at h
    obtain ⟨hj, hn, hevs⟩ := h
    subst hj
    obtain ⟨-, hbk, hmin⟩ := runResponsiveLoop_exit obs fuel 0 j' evs' hrl
    refine ⟨hbk, fun k hk => hmin k (Nat.zero_le k) hk, ?_, ?_⟩
    · by_cases hsd : (obs j').shuttingDown = true
      · rw [if_pos hsd] at hn
        omega
      · rw [if_neg hsd] at hn
        omega
    · by_cases hsd : (obs j').shuttingDown = true
      · rw [if_pos hsd] at hn
        constructor
        · intro h1
          omega
        · intro h1
          rw [hsd] at h1
          exact absurd h1 (by simp)
      · rw [if_neg hsd] at hn
        constructor
        · intro _
          cases hv : (obs j').shuttingDown
          · rfl
          · exact absurd hv hsd
        · intro _
          omega

/-- Claim C6, witness: the loop run on the sample trace `cObs` breaks at
iteration 1 (first exit request) and invokes `shutdown()` once. -/
theorem responsive_loop_shutdown_once_witness :
    breakAt cObs 1 = true ∧
    (1 : Nat) ≤ 1 ∧
    ((1 : Nat) = 1 ↔ (cObs 1).shuttingDown = false) :=
  ⟨(responsive_loop_shutdown_once cObs 3 1 1
      [Event.extStep false true false, Event.sleepMs 10] (by rfl)).1,
   (responsive_loop_shutdown_once cObs 3 1 1
      [Event.extStep false true false, Event.sleepMs 10] (by rfl)).2.2.1,
   (responsive_loop_shutdown_once cObs 3 1 1
      [Event.extStep false true false, Event.sleepMs 10] (by rfl)).2.2.2⟩

/-- Helper: when the readiness predicate never answers true, the poll
never finds a ready index, whatever the fuel. -/
theorem findReady_none (can : Nat → Bool) (hc : ∀ n, can n = false) :
    ∀ fuel i, findReady can fuel i = none := by
  intro fuel
  induction fuel with
  | zero =>
    intro i
    rfl
  | succ n ih =>
    intro i
    simp [findReady, hc i, ih]

/-- Helper: when the readiness predicate answers true at some index
within the fuel, the poll finds a ready index. -/
theorem findReady_isSome (can : Nat → Bool) :
    ∀ fuel i k, i ≤ k → k < i + fuel → can k = true →
      (findReady can fuel i).isSome = true := by
  intro fuel
  induction fuel with
  | zero =>
    intro i k h1 h2 _
    omega
  | succ n ih =>
    intro i k h1 h2 hk
    by_cases hci : can i = true
    · simp [findReady, hci]
    · have hik : i ≠ k := by
        intro he
        exact hci (he ▸ hk)
      simp only [findReady, if_neg hci]
      exact ih (i + 1) k (by omega) (by omega) hk

/-- Claim C7: the readiness poll in `launch` is unbounded.  If the
readiness predicate never becomes true, `launch` never proceeds past
the poll for any fuel: it reports only the pre-poll events and never
issues the one-shot initialization call.  If the predicate is true at
some poll index within the fuel, `launch` (non-blocking) proceeds to
the one-shot initialization call. -/
theorem launch_poll_unbounded (s : PyRepState) (env : LaunchEnv)
    (headless responsiveUi : Bool) (fuelBlock : Nat) :
    ((∀ n, env.canInit n = false) → ∀ fuelPoll blocking,
      launch s env "" headless responsiveUi blocking fuelPoll fuelBlock =
        LaunchResult.incomplete
          [Event.threadStart ThreadId.session, Event.chdir env.vrepRoot,
           Event.setVerbosity, Event.launchUI "" headless] ∧
      Event.simThreadInit ∉
        (launch s env "" headless responsiveUi blocking
          fuelPoll fuelBlock).events) ∧
    (∀ k fuelPoll, env.canInit k = true → k < fuelPoll →
      Event.simThreadInit ∈
        (launch s env "" headless responsiveUi false
          fuelPoll fuelBlock).events) := by
  constructor
  · intro hc fuelPoll blocking
    have hfr := findReady_none env.canInit hc fuelPoll 0
    have hl : launch s env "" headless responsiveUi blocking
        fuelPoll fuelBlock =
        LaunchResult.incomplete
          [Event.threadStart ThreadId.session, Event.chdir env.vrepRoot,
           Event.setVerbosity, Event.launchUI "" headless] := by
      simp [launch, hfr]
    refine ⟨hl, ?_⟩
    rw [hl]
    simp [LaunchResult.events]
  · intro k fuelPoll hk hlt
    have hs : (findReady env.canInit fuelPoll 0).isSome = true :=
      findReady_isSome env.canInit fuelPoll 0 k (Nat.zero_le k)
        (by omega) hk
    cases hfr : findReady env.canInit fuelPoll 0 with
    | none =>
      rw [hfr] at hs
      exact absurd hs (by simp)
    | some m =>
      by_cases hru : responsiveUi = true
      · simp [launch, hfr, hru, LaunchResult.events]
      · simp [launch, hfr, hru, LaunchResult.events]

/-- Claim C7, witness: on the always-ready sample environment a
non-blocking `launch` reaches the one-shot initialization call. -/
theorem launch_poll_unbounded_witness :
    Event.simThreadInit ∈
      (launch sFresh cEnvReady "" false false false 3 3).events :=
  (launch_poll_unbounded sFresh cEnvReady false false 3).2 0 3 rfl
    (by omega)

/-- Claim C9: a completed `launch` (any mode) leaves the caller's
working directory unchanged: the saved directory is restored before
returning, even though the session thread switched the process to the
engine install root. -/
theorem launch_restores_cwd (s : PyRepState) (env : LaunchEnv)
    (sceneFile : String) (headless responsiveUi blocking : Bool)
    (fuelPoll fuelBlock : Nat) (s' : PyRepState) (evs : List Event)
    (h : launch s env sceneFile headless responsiveUi blocking
      fuelPoll fuelBlock = LaunchResult.done s' evs) :
    s'.cwd = s.cwd := by
  simp only [launch] at h
  split at h
  · exact absurd h (by simp)
  · split at h
    · exact absurd h (by simp)
    · split at h
      · split at h
        · exact absurd h (by simp)
        · split at h
          · exact absurd h (by simp)
          · simp only [LaunchResult.done.injEq] at h
            rw [← h.1]
      · split at h
        · simp only [LaunchResult.done.injEq] at h
          rw [← h.1]
        · simp only [LaunchResult.done.injEq] at h
          rw [← h.1]

/-- Claim C9, witness: the concrete completed non-blocking launch
returns with the original working directory. -/
theorem launch_restores_cwd_witness :
    PyRepState.cwd { sFresh with uiThread := true } = sFresh.cwd :=
  launch_restores_cwd sFresh cEnvReady "" false false false 3 3
    { sFresh with uiThread := true }
    [Event.threadStart ThreadId.session, Event.chdir "/opt/sim",
     Event.setVerbosity, Event.launchUI "" false, Event.simThreadInit,
     Event.sleepMs 200, Event.extStep true true false, Event.sleepMs 100,
     Event.infoQuery, Event.infoQuery,
     Event.extStep stepDefaultAdvance true false,
     Event.infoQuery, Event.chdir "/home/user"] (by rfl)

/-- Claim C2, counterexample: a blocking-mode `launch` (source lines
230-231) issues an advance call into the engine WITHOUT acquiring the
Step Gate, refuting the claim that every call path issuing an
advance/refresh call acquires the gate first. -/
theorem blocking_launch_unlocked_step :
    Event.extStep true false false ∈
      (launch sFresh cEnvReady "" false false true 1 2).events := by
  decide

/-- Helper: every event of `stepTimes` is the single locked step event. -/
theorem stepTimes_mem (s : PyRepState) :
    ∀ n e, e ∈ stepTimes s n →
      e = Event.extStep stepDefaultAdvance true s.running := by
  intro n
  induction n with
  | zero =>
    intro e he
    simp [stepTimes] at he
  | succ m ih =>
    intro e he
    simp only [stepTimes, stepEvents, List.mem_append,
      List.mem_singleton] at he
    rcases he with he | he
    · exact he
    · exact ih e he

/-- Helper: every step-like event issued by `stop` holds the gate. -/
theorem stop_steps_locked (s s' : PyRepState) (evs : List Event)
    (h : stop s = Except.ok (s', evs)) :
    ∀ e ∈ evs, Event.stepLike e = true → Event.lockHeld e = true := by
  intro e he hs
  by_cases hu : s.uiThread = false
  · rw [stop, if_pos hu] at h
    exact absurd h (by simp)
  · by_cases hr : s.running = true
    · simp only [stop] at h
      rw [if_neg hu, if_pos hr] at h
      simp only [Except.ok.injEq, Prod.mk.injEq] at h
      rw [← h.2] at he
      simp only [List.mem_cons] at he
      rcases he with rfl | he
      · exact absurd hs (by simp [Event.stepLike])
      · rw [stepTimes_mem _ _ _ he]
        rfl
    · simp only [stop] at h
      rw [if_neg hu, if_neg hr] at h
      simp only [Except.ok.injEq, Prod.mk.injEq] at h
      rw [← h.2] at he
      simp at he

/-- Helper: every step-like event issued by `shutdown` holds the gate. -/
theorem shutdown_steps_locked (s s' : PyRepState) (evs : List Event)
    (h : shutdown s = Except.ok (s', evs)) :
    ∀ e ∈ evs, Event.stepLike e = true → Event.lockHeld e = true := by
  intro e he hs
  by_cases hu : s.uiThread = false
  · rw [shutdown, if_pos hu] at h
    exact absurd h (by simp)
  · simp only [shutdown] at h
    rw [if_neg hu] at h
    cases hstop : stop { s with shuttingDown := true } with
    | error e2 =>
      rw [hstop] at h
      exact absurd h (by simp)
    | ok p =>
      obtain ⟨s2, evs2⟩ := p
      rw [hstop] at h
      simp only [Except.ok.injEq, Prod.mk.injEq] at h
      rw [← h.2] at he
      rw [List.mem_cons] at he
      rcases he with rfl | he
      · exact absurd hs (by simp [Event.stepLike])
      rw [List.mem_append] at he
      rcases he with he | he
      · exact stop_steps_locked _ _ _ hstop e he hs
      rw [List.mem_append] at he
      rcases he with he | he
      · simp only [List.mem_cons, List.not_mem_nil, or_false] at he
        rcases he with rfl | rfl | rfl | rfl
        · rfl
        · exact absurd hs (by simp [Event.stepLike])
        · exact absurd hs (by simp [Event.stepLike])
        · exact absurd hs (by simp [Event.stepLike])
      · rw [List.mem_append] at he
        rcases he with he | he
        · by_cases hrt : s2.responsiveUiThread = true
          · rw [if_pos hrt] at he
            simp only [List.mem_singleton] at he
            subst he
            exact absurd hs (by simp [Event.stepLike])
          · rw [if_neg hrt] at he
            simp at he
        · simp only [List.mem_cons, List.not_mem_nil, or_false] at he
          rcases he with rfl | rfl
          · exact absurd hs (by simp [Event.stepLike])
          · exact absurd hs (by simp [Event.stepLike])

/-- Helper: the responsive-UI loop only issues gate-held UI steps and
sleeps. -/
theorem runResponsiveLoop_mem (obs : Nat → LoopObs) :
    ∀ fuel i j evs, runResponsiveLoop obs fuel i = some (j, evs) →
      ∀ e ∈ evs,
        e = Event.extStep false true false ∨ e = Event.sleepMs 10 := by
  intro fuel
  induction fuel with
  | zero =>
    intro i j evs h
    exact absurd h (by simp [runResponsiveLoop])
  | succ n ih =>
    intro i j evs h
    simp only [runResponsiveLoop] at h
    by_cases hr : (obs i).running = false
    · rw [if_pos hr] at h
      by_cases hb : (obs i).shuttingDown = true ∨ (obs i).exitReq = true
      · rw [if_pos hb] at h
        simp only [Option.some.injEq, Prod.mk.injEq] at h
        rw [← h.2]
        intro e he
        simp at he
      · rw [if_neg hb] at h
        cases hrec : runResponsiveLoop obs n (i + 1) with
        | none =>
          rw [hrec] at h
          exact absurd h (by simp)
        | some p =>
          obtain ⟨j', evs'⟩ := p
          rw [hrec] at h
          simp only [Option.some.injEq, Prod.mk.injEq] at h
          rw [← h.2]
          intro e he
          simp only [List.mem_cons] at he
          rcases he with rfl | rfl | he
          · exact Or.inl rfl
          · exact Or.inr rfl
          · exact ih (i + 1) j' evs' hrec e he
    · rw [if_neg hr] at h
      cases hrec : runResponsiveLoop obs n (i + 1) with
      | none =>
        rw [hrec] at h
        exact absurd h (by simp)
      | some p =>
        obtain ⟨j', evs'⟩ := p
        rw [hrec] at h
        simp only [Option.some.injEq, Prod.mk.injEq] at h
        rw [← h.2]
        intro e he
        simp only [List.mem_cons] at he
        rcases he with rfl | he
        · exact Or.inr rfl
        · exact ih (i + 1) j' evs' hrec e he

/-- Helper: every event of the blocking-mode launch loop is the
gate-free advance step. -/
theorem blockingLoop_mem (exitReq : Nat → Bool) (r : Bool) :
    ∀ fuel i e, e ∈ (blockingLoop exitReq r fuel i).2 →
      e = Event.extStep true false r := by
  intro fuel
  induction fuel with
  | zero =>
    intro i e he
    simp [blockingLoop] at he
  | succ n ih =>
    intro i e he
    simp only [blockingLoop] at he
    by_cases hx : exitReq i = true
    · rw [if_pos hx] at he
      simp at he
    · rw [if_neg hx] at he
      simp only [List.mem_cons] at he
      rcases he with rfl | he
      · rfl
      · exact ih (i + 1) e he

/-- Helper: every step-like event of a non-blocking `launch` holds the
gate (the preliminary step and the initial step are issued under the
Step Gate). -/
theorem launch_nonblocking_all_locked (s : PyRepState) (env : LaunchEnv)
    (sceneFile : String) (headless responsiveUi : Bool)
    (fuelPoll fuelBlock : Nat) :
    ((launch s env sceneFile headless responsiveUi false
        fuelPoll fuelBlock).events.all
      (fun e => !e.stepLike || e.lockHeld)) = true := by
  simp only [launch]
  split
  · rfl
  · split
    · rfl
    · split
      · next hft =>
        exact absurd hft Bool.false_ne_true
      · split
        · rfl
        · rfl

/-- Claim C2, amended: every advance/UI-refresh call issued by `step`,
`step_ui`, `stop`, `shutdown`, the responsive-UI loop, and a
non-blocking `launch` (its preliminary and initial steps) is made while
holding the Step Gate; the blocking-mode loop of `launch`, however,
issues its advance calls without acquiring the gate, so gate-based
mutual exclusion does not extend to blocking-mode launch. -/
theorem step_gate_coverage :
    (∀ s s' evs, step s = Except.ok (s', evs) →
      ∀ e ∈ evs, Event.stepLike e = true → Event.lockHeld e = true) ∧
    (∀ s s' evs, step_ui s = Except.ok (s', evs) →
      ∀ e ∈ evs, Event.stepLike e = true → Event.lockHeld e = true) ∧
    (∀ s s' evs, stop s = Except.ok (s', evs) →
      ∀ e ∈ evs, Event.stepLike e = true → Event.lockHeld e = true) ∧
    (∀ s s' evs, shutdown s = Except.ok (s', evs) →
      ∀ e ∈ evs, Event.stepLike e = true → Event.lockHeld e = true) ∧
    (∀ obs fuel i j evs, runResponsiveLoop obs fuel i = some (j, evs) →
      ∀ e ∈ evs, Event.stepLike e = true → Event.lockHeld e = true) ∧
    (∀ s env sceneFile headless responsiveUi fuelPoll fuelBlock,
      ∀ e ∈ (launch s env sceneFile headless responsiveUi false
          fuelPoll fuelBlock).events,
        Event.stepLike e = true → Event.lockHeld e = true) ∧
    (∀ exitReq r fuel i, ∀ e ∈ (blockingLoop exitReq r fuel i).2,
      Event.stepLike e = true ∧ Event.lockHeld e = false ∧
        e = Event.extStep true false r) := by
  refine ⟨?_, ?_, ?_, ?_, ?_, ?_, ?_⟩
  · intro s s' evs h e he _
    simp only [step, Except.ok.injEq, Prod.mk.injEq] at h
    rw [← h.2] at he
    simp only [stepEvents, List.mem_singleton] at he
    subst he
    rfl
  · intro s s' evs h e he _
    simp only [step_ui, Except.ok.injEq, Prod.mk.injEq] at h
    rw [← h.2] at he
    simp only [List.mem_singleton] at he
    subst he
    rfl
  · exact fun s s' evs h => stop_steps_locked s s' evs h
  · exact fun s s' evs h => shutdown_steps_locked s s' evs h
  · intro obs fuel i j evs h e he hs
    rcases runResponsiveLoop_mem obs fuel i j evs h e he with rfl | rfl
    · rfl
    · exact absurd hs (by simp [Event.stepLike])
  · intro s env sceneFile headless responsiveUi fuelPoll fuelBlock e he hs
    have hall := launch_nonblocking_all_locked s env sceneFile headless
      responsiveUi fuelPoll fuelBlock
    have := List.all_eq_true.mp hall e he
    simpa [hs] using this
  · intro exitReq r fuel i e he
    rw [blockingLoop_mem exitReq r fuel i e he]
    exact ⟨rfl, rfl, rfl⟩

/-- Claim C2, witness: the gate-free conjunct evaluated on the concrete
blocking trace of the counterexample environment. -/
theorem step_gate_coverage_witness :
    Event.stepLike (Event.extStep true false false) = true ∧
    Event.lockHeld (Event.extStep true false false) = false ∧
    Event.extStep true false false = Event.extStep true false false :=
  step_gate_coverage.2.2.2.2.2.2 (fun n => decide (1 ≤ n)) false 2 0
    (Event.extStep true false false) (by decide)

end PyRepModel
